import Mathlib

/-!
Shallow embedding of `src/components/ReadmeGenerator.tsx` from the
readme-builder-pro repository, together with proofs of the behavioural
claims about its generation pipeline and list operations.

The component is a single-page form: a mutable `ProjectData` record, a
generated-readme text cell, a busy flag, two staging fields for the
tech-stack and feature lists, and one external key/value cell
(`localStorage` under the fixed name "groq-api-key").  The only
suspension point is the single `fetch` inside `generateReadme`; we model
its outcome as an explicit oracle argument (`FetchOutcome`) and record
the externally visible side effects (key/value write, network request,
file download) as an event trace.
-/

namespace ReadmeBuilder

/-- The `ProjectData` record of the component (source lines 14-26). -/
structure ProjectData where
  name : String
  description : String
  techStack : List String
  features : List String
  installation : String
  usage : String
  license : String
  author : String
  repository : String
  liveDemo : String
  apiKey : String
deriving Repr, DecidableEq

/-- Full component state: the `ProjectData` record plus the four other
`useState` cells (source lines 29-46) and the external `localStorage`
cell for the key "groq-api-key", modelled as an `Option String`
(`none` = the key is absent). -/
structure ComponentState where
  projectData : ProjectData
  generatedReadme : String
  isGenerating : Bool
  currentTech : String
  currentFeature : String
  storage : Option String
deriving Repr, DecidableEq

/-- Initial state of the component (source lines 29-46): every text field
empty, both lists empty, license defaulted to "MIT", and `apiKey`
pre-populated from the key/value cell (`localStorage.getItem "groq-api-key" or ""`,
source line 40).  Reading leaves the cell itself untouched. -/
def initState (stored : Option String) : ComponentState :=
  { projectData :=
      { name := ""
        description := ""
        techStack := []
        features := []
        installation := ""
        usage := ""
        license := "MIT"
        author := ""
        repository := ""
        liveDemo := ""
        apiKey := stored.getD "" }
    generatedReadme := ""
    isGenerating := false
    currentTech := ""
    currentFeature := ""
    storage := stored }

/-- Model of JavaScript `String.prototype.trim` on the character list:
drop whitespace from the front, then from the back.  (Lean's built-in
`String.trim` is extensionally the same but is defined by well-founded
recursion on byte positions, which does not reduce in the kernel, so we
use this structurally recursive version.) -/
def trimChars (l : List Char) : List Char :=
  ((l.dropWhile Char.isWhitespace).reverse.dropWhile Char.isWhitespace).reverse

/-- JavaScript `token.trim()` as used at source lines 64, 67, 81 and 84. -/
def jsTrim (s : String) : String :=
  String.mk (trimChars s.data)

/-- The `addTechStack` handler (source lines 63-71): if the trimmed
staging token is non-empty (JS truthiness of a string) and not already
contained in `techStack` (JS `includes`, exact match), append it and
clear the staging field; otherwise do nothing. -/
def addTechStack (s : ComponentState) : ComponentState :=
  let t := jsTrim s.currentTech
  if t ≠ "" ∧ t ∉ s.projectData.techStack then
    { s with
      projectData := { s.projectData with techStack := s.projectData.techStack ++ [t] }
      currentTech := "" }
  else s

/-- The `removeTechStack` handler (source lines 73-78):
`techStack.filter (t => t !== tech)`. -/
def removeTechStack (s : ComponentState) (tech : String) : ComponentState :=
  { s with
    projectData :=
      { s.projectData with
        techStack := s.projectData.techStack.filter (fun t => t != tech) } }

/-- The `addFeature` handler (source lines 80-88), mirror image of
`addTechStack` on the `features` list and the `currentFeature` staging
field. -/
def addFeature (s : ComponentState) : ComponentState :=
  let t := jsTrim s.currentFeature
  if t ≠ "" ∧ t ∉ s.projectData.features then
    { s with
      projectData := { s.projectData with features := s.projectData.features ++ [t] }
      currentFeature := "" }
  else s

/-- The `removeFeature` handler (source lines 90-95):
`features.filter (f => f !== feature)`. -/
def removeFeature (s : ComponentState) (feature : String) : ComponentState :=
  { s with
    projectData :=
      { s.projectData with
        features := s.projectData.features.filter (fun f => f != feature) } }

/-- A `message` object inside a returned choice; `content` is `none` when
the field is absent (JS `undefined`). -/
structure ChatMessage where
  content : Option String
deriving Repr, DecidableEq

/-- One element of the response's `choices` array; `message` is `none`
when the field is absent. -/
structure Choice where
  message : Option ChatMessage
deriving Repr, DecidableEq

/-- Outcome of the single `fetch` call (source lines 145-172), as seen by
the caller after `await response.json()`:
either the transport rejects (network error / the `await` raises), or a
response arrives with an `ok` flag (2xx) and a parsed JSON body whose
`choices` field is either absent (`none`) or a list of choices. -/
inductive FetchOutcome where
  | transportError
  | response (ok : Bool) (choices : Option (List Choice))
deriving Repr, DecidableEq

/-- Externally visible side effects of the handlers, in order of
occurrence. -/
inductive Event where
  | storeKey (key : String)
  | netRequest
  | download (content : String) (filename : String)
deriving Repr, DecidableEq

/-- The user-visible terminal outcome of one `generateReadme` invocation,
abstracting the four toast messages of the source:
"API Key Required" (line 100), "Missing Information" (line 109),
"Generation Failed" (line 183), "README Generated!" (line 177). -/
inductive GenOutcome where
  | missingCredential
  | incompleteProject
  | generationFailed
  | generated
deriving Repr, DecidableEq

/-- Result of one `generateReadme` invocation: the next component state,
the terminal outcome, and the trace of external side effects. -/
structure GenResult where
  state : ComponentState
  outcome : GenOutcome
  events : List Event
deriving Repr, DecidableEq

/-- Extraction of the readme text from a present `choices` array
(source line 173): `data.choices[0]?.message?.content || fallback`.
The optional chain yields `undefined` when the array is empty or a field
is missing, and `||` replaces every falsy value — `undefined` and the
empty string alike — by the fallback literal. -/
def extractReadme (choices : List Choice) : String :=
  match (choices.head?.bind Choice.message).bind ChatMessage.content with
  | some txt => if txt = "" then "Failed to generate README" else txt
  | none => "Failed to generate README"

/-- The `generateReadme` handler (source lines 97-190).

Precondition checks: `!projectData.apiKey` (line 98) then
`!projectData.name || !projectData.description` (line 107); each aborts
with a toast and no side effect.  On pass: `setIsGenerating(true)` and
`localStorage.setItem("groq-api-key", apiKey)` (lines 116-117), then the
single `fetch` (line 145).  A transport rejection, a non-`ok` response
(`throw` at line 169) and an absent `choices` field (reading
`data.choices[0]` of `undefined` raises a TypeError at line 173) all land
in the `catch` block (line 180); only a present `choices` array reaches
`setGeneratedReadme` (line 175).  The `finally` block (line 188) clears
the busy flag on every post-precondition path. -/
def generateReadme (s : ComponentState) (net : FetchOutcome) : GenResult :=
  if s.projectData.apiKey = "" then
    { state := s, outcome := GenOutcome.missingCredential, events := [] }
  else if s.projectData.name = "" ∨ s.projectData.description = "" then
    { state := s, outcome := GenOutcome.incompleteProject, events := [] }
  else
    let busy : ComponentState :=
      { s with isGenerating := true, storage := some s.projectData.apiKey }
    let evs : List Event := [Event.storeKey s.projectData.apiKey, Event.netRequest]
    match net with
    | FetchOutcome.transportError =>
        { state := { busy with isGenerating := false }
          outcome := GenOutcome.generationFailed
          events := evs }
    | FetchOutcome.response ok choices =>
        if ok then
          match choices with
          | none =>
              { state := { busy with isGenerating := false }
                outcome := GenOutcome.generationFailed
                events := evs }
          | some cs =>
              { state := { busy with generatedReadme := extractReadme cs, isGenerating := false }
                outcome := GenOutcome.generated
                events := evs }
        else
          { state := { busy with isGenerating := false }
            outcome := GenOutcome.generationFailed
            events := evs }

/-- The `downloadReadme` handler (source lines 200-212): unconditionally
builds a markdown blob from the current `generatedReadme` text and
triggers a download under the fixed filename "README.md".  The source
contains no guard of its own. -/
def downloadReadme (s : ComponentState) : ComponentState × List Event :=
  (s, [Event.download s.generatedReadme "README.md"])

/-- The preview tab (source line 470) renders the card with the Download
button only when `generatedReadme` is truthy, i.e. non-empty. -/
def previewShowsDownload (s : ComponentState) : Bool :=
  s.generatedReadme != ""

/-- A download click as available through the rendered interface: the
`downloadReadme` handler is reachable only through the button that the
preview tab renders when `previewShowsDownload` holds (source lines
470-510); otherwise no download action exists and nothing happens. -/
def uiDownloadClick (s : ComponentState) : ComponentState × List Event :=
  if previewShowsDownload s then downloadReadme s else (s, [])

/-- Field setter for the apiKey input (source line 279). -/
def setApiKey (s : ComponentState) (v : String) : ComponentState :=
  { s with projectData := { s.projectData with apiKey := v } }

/-- Field setter for the name input (source line 289). -/
def setName (s : ComponentState) (v : String) : ComponentState :=
  { s with projectData := { s.projectData with name := v } }

/-- Field setter for the description textarea (source line 299). -/
def setDescription (s : ComponentState) (v : String) : ComponentState :=
  { s with projectData := { s.projectData with description := v } }

/-- Field setter for the author input (source line 309). -/
def setAuthor (s : ComponentState) (v : String) : ComponentState :=
  { s with projectData := { s.projectData with author := v } }

/-- Field setter for the license select (source line 315). -/
def setLicense (s : ComponentState) (v : String) : ComponentState :=
  { s with projectData := { s.projectData with license := v } }

/-- Field setter for the repository input (source line 399). -/
def setRepository (s : ComponentState) (v : String) : ComponentState :=
  { s with projectData := { s.projectData with repository := v } }

/-- Field setter for the live-demo input (source line 409). -/
def setLiveDemo (s : ComponentState) (v : String) : ComponentState :=
  { s with projectData := { s.projectData with liveDemo := v } }

/-- Field setter for the installation textarea (source line 431). -/
def setInstallation (s : ComponentState) (v : String) : ComponentState :=
  { s with projectData := { s.projectData with installation := v } }

/-- Field setter for the usage textarea (source line 441). -/
def setUsage (s : ComponentState) (v : String) : ComponentState :=
  { s with projectData := { s.projectData with usage := v } }

/-- Staging-field setter for the tech-stack input (source line 349). -/
def setCurrentTech (s : ComponentState) (v : String) : ComponentState :=
  { s with currentTech := v }

/-- Staging-field setter for the feature input (source line 374). -/
def setCurrentFeature (s : ComponentState) (v : String) : ComponentState :=
  { s with currentFeature := v }

/-- The states the component can actually be in between event-handler
invocations: the initial state, closed under every handler the rendered
interface exposes.  The `fetch` outcome of a generation is arbitrary. -/
inductive Reachable : ComponentState → Prop where
  | init (stored : Option String) : Reachable (initState stored)
  | apiKeyInput {s} (v : String) : Reachable s → Reachable (setApiKey s v)
  | nameInput {s} (v : String) : Reachable s → Reachable (setName s v)
  | descriptionInput {s} (v : String) : Reachable s → Reachable (setDescription s v)
  | authorInput {s} (v : String) : Reachable s → Reachable (setAuthor s v)
  | licenseInput {s} (v : String) : Reachable s → Reachable (setLicense s v)
  | repositoryInput {s} (v : String) : Reachable s → Reachable (setRepository s v)
  | liveDemoInput {s} (v : String) : Reachable s → Reachable (setLiveDemo s v)
  | installationInput {s} (v : String) : Reachable s → Reachable (setInstallation s v)
  | usageInput {s} (v : String) : Reachable s → Reachable (setUsage s v)
  | techInput {s} (v : String) : Reachable s → Reachable (setCurrentTech s v)
  | featureInput {s} (v : String) : Reachable s → Reachable (setCurrentFeature s v)
  | addTech {s} : Reachable s → Reachable (addTechStack s)
  | removeTech {s} (tech : String) : Reachable s → Reachable (removeTechStack s tech)
  | addFeat {s} : Reachable s → Reachable (addFeature s)
  | removeFeat {s} (feature : String) : Reachable s → Reachable (removeFeature s feature)
  | generate {s} (net : FetchOutcome) : Reachable s → Reachable (generateReadme s net).state
  | downloadClick {s} : Reachable s → Reachable (uiDownloadClick s).1

/-- A form session with only the credential filled in. -/
def stateWithKey : ComponentState := setApiKey (initState none) "k1"

/-- A form session with credential, name and description filled in
(the scenario of the spec's end-to-end example). -/
def stateValid : ComponentState :=
  setDescription (setName stateWithKey "Widget") "A widget."

/-- A form session with one tech-stack token staged. -/
def stateStagedTech : ComponentState :=
  setCurrentFeature (setCurrentTech (initState none) " Go ") " Fast "

/-- A form session with the token "Go" added to the tech stack and "Fast"
added to the features. -/
def stateAdded : ComponentState := addFeature (addTechStack stateStagedTech)

theorem stateAdded_reachable : Reachable stateAdded :=
  Reachable.addFeat (Reachable.addTech
    (Reachable.featureInput " Fast " (Reachable.techInput " Go " (Reachable.init none))))

theorem generateReadme_missing {s : ComponentState} (net : FetchOutcome)
    (h : s.projectData.apiKey = "") :
    generateReadme s net =
      { state := s, outcome := GenOutcome.missingCredential, events := [] } := by
  simp [generateReadme, h]

theorem generateReadme_incomplete {s : ComponentState} (net : FetchOutcome)
    (h1 : s.projectData.apiKey ≠ "")
    (h2 : s.projectData.name = "" ∨ s.projectData.description = "") :
    generateReadme s net =
      { state := s, outcome := GenOutcome.incompleteProject, events := [] } := by
  rcases h2 with h2 | h2 <;> simp [generateReadme, h1, h2]

theorem generateReadme_transport {s : ComponentState}
    (h1 : s.projectData.apiKey ≠ "") (h2 : s.projectData.name ≠ "")
    (h3 : s.projectData.description ≠ "") :
    generateReadme s FetchOutcome.transportError =
      { state := { s with isGenerating := false, storage := some s.projectData.apiKey }
        outcome := GenOutcome.generationFailed
        events := [Event.storeKey s.projectData.apiKey, Event.netRequest] } := by
  simp [generateReadme, h1, h2, h3]

theorem generateReadme_notOk {s : ComponentState} (choices : Option (List Choice))
    (h1 : s.projectData.apiKey ≠ "") (h2 : s.projectData.name ≠ "")
    (h3 : s.projectData.description ≠ "") :
    generateReadme s (FetchOutcome.response false choices) =
      { state := { s with isGenerating := false, storage := some s.projectData.apiKey }
        outcome := GenOutcome.generationFailed
        events := [Event.storeKey s.projectData.apiKey, Event.netRequest] } := by
  simp [generateReadme, h1, h2, h3]

theorem generateReadme_ok_noChoices {s : ComponentState}
    (h1 : s.projectData.apiKey ≠ "") (h2 : s.projectData.name ≠ "")
    (h3 : s.projectData.description ≠ "") :
    generateReadme s (FetchOutcome.response true none) =
      { state := { s with isGenerating := false, storage := some s.projectData.apiKey }
        outcome := GenOutcome.generationFailed
        events := [Event.storeKey s.projectData.apiKey, Event.netRequest] } := by
  simp [generateReadme, h1, h2, h3]

theorem generateReadme_ok_choices {s : ComponentState} (cs : List Choice)
    (h1 : s.projectData.apiKey ≠ "") (h2 : s.projectData.name ≠ "")
    (h3 : s.projectData.description ≠ "") :
    generateReadme s (FetchOutcome.response true (some cs)) =
      { state :=
          { s with
            generatedReadme := extractReadme cs
            isGenerating := false
            storage := some s.projectData.apiKey }
        outcome := GenOutcome.generated
        events := [Event.storeKey s.projectData.apiKey, Event.netRequest] } := by
  simp [generateReadme, h1, h2, h3]

theorem extractReadme_ne_empty (cs : List Choice) : extractReadme cs ≠ "" := by
  unfold extractReadme
  split
  · split
    · decide
    · assumption
  · decide

theorem generateReadme_state_projectData (s : ComponentState) (net : FetchOutcome) :
    (generateReadme s net).state.projectData = s.projectData := by
  unfold generateReadme
  split
  · rfl
  · split
    · rfl
    · cases net with
      | transportError => rfl
      | response ok choices =>
        simp only
        split
        · cases choices <;> rfl
        · rfl

theorem generateReadme_busy_cases (s : ComponentState) (net : FetchOutcome) :
    (generateReadme s net).state.isGenerating = false ∨ (generateReadme s net).state = s := by
  unfold generateReadme
  split
  · exact Or.inr rfl
  · split
    · exact Or.inr rfl
    · cases net with
      | transportError => exact Or.inl rfl
      | response ok choices =>
        simp only
        split
        · cases choices
          · exact Or.inl rfl
          · exact Or.inl rfl
        · exact Or.inl rfl

theorem uiDownloadClick_state (s : ComponentState) : (uiDownloadClick s).1 = s := by
  unfold uiDownloadClick downloadReadme
  split <;> rfl

/-- Invariant of every reachable component state: the two token lists are
duplicate-free, and the busy flag is clear (handlers are atomic in this
model, and the only trigger of `generateReadme` is disabled while the
flag is set, source line 450). -/
theorem reachable_invariant {s : ComponentState} (hs : Reachable s) :
    s.projectData.techStack.Nodup ∧ s.projectData.features.Nodup ∧
      s.isGenerating = false := by
  induction hs with
  | init stored => simp [initState]
  | apiKeyInput v _ ih => simpa [setApiKey] using ih
  | nameInput v _ ih => simpa [setName] using ih
  | descriptionInput v _ ih => simpa [setDescription] using ih
  | authorInput v _ ih => simpa [setAuthor] using ih
  | licenseInput v _ ih => simpa [setLicense] using ih
  | repositoryInput v _ ih => simpa [setRepository] using ih
  | liveDemoInput v _ ih => simpa [setLiveDemo] using ih
  | installationInput v _ ih => simpa [setInstallation] using ih
  | usageInput v _ ih => simpa [setUsage] using ih
  | techInput v _ ih => simpa [setCurrentTech] using ih
  | featureInput v _ ih => simpa [setCurrentFeature] using ih
  | addTech _ ih =>
      obtain ⟨ht, hf, hg⟩ := ih
      simp only [addTechStack]
      split
      · rename_i hc
        exact ⟨by simp [List.nodup_append, ht, hc.2], hf, hg⟩
      · exact ⟨ht, hf, hg⟩
  | removeTech tech _ ih =>
      obtain ⟨ht, hf, hg⟩ := ih
      exact ⟨ht.filter _, hf, hg⟩
  | addFeat _ ih =>
      obtain ⟨ht, hf, hg⟩ := ih
      simp only [addFeature]
      split
      · rename_i hc
        exact ⟨ht, by simp [List.nodup_append, hf, hc.2], hg⟩
      · exact ⟨ht, hf, hg⟩
  | removeFeat feature _ ih =>
      obtain ⟨ht, hf, hg⟩ := ih
      exact ⟨ht, hf.filter _, hg⟩
  | generate net _ ih =>
      obtain ⟨ht, hf, hg⟩ := ih
      refine ⟨?_, ?_, ?_⟩
      · rw [generateReadme_state_projectData]; exact ht
      · rw [generateReadme_state_projectData]; exact hf
      · rcases generateReadme_busy_cases _ net with h | h
        · exact h
        · rw [h]; exact hg
  | downloadClick _ ih => rw [uiDownloadClick_state]; exact ih

/-- Claim C1: for every state in which apiKey is the empty string, calling
`generateReadme` fails with the missing-credential outcome, issues no network
request, writes nothing to the key/value cell, and leaves the whole component
state — in particular `ProjectData` and the generation result — unchanged,
whatever the network oracle would have answered. -/
theorem generate_empty_key_missing_credential (s : ComponentState) (net : FetchOutcome)
    (h : s.projectData.apiKey = "") :
    (generateReadme s net).outcome = GenOutcome.missingCredential ∧
    Event.netRequest ∉ (generateReadme s net).events ∧
    (∀ k, Event.storeKey k ∉ (generateReadme s net).events) ∧
    (generateReadme s net).state = s := by
  rw [generateReadme_missing net h]
  simp

theorem generate_empty_key_missing_credential_witness :
    (generateReadme (initState none) FetchOutcome.transportError).outcome
        = GenOutcome.missingCredential ∧
    Event.netRequest ∉ (generateReadme (initState none) FetchOutcome.transportError).events ∧
    (∀ k, Event.storeKey k
        ∉ (generateReadme (initState none) FetchOutcome.transportError).events) ∧
    (generateReadme (initState none) FetchOutcome.transportError).state = initState none :=
  generate_empty_key_missing_credential (initState none) FetchOutcome.transportError rfl

/-- Claim C2: for every state in which apiKey is non-empty but name or
description is the empty string, calling `generateReadme` fails with the
incomplete-project outcome, issues no network request, writes nothing to the
key/value cell, and leaves the component state — in particular the generation
result — unchanged. -/
theorem generate_incomplete_project (s : ComponentState) (net : FetchOutcome)
    (h1 : s.projectData.apiKey ≠ "")
    (h2 : s.projectData.name = "" ∨ s.projectData.description = "") :
    (generateReadme s net).outcome = GenOutcome.incompleteProject ∧
    Event.netRequest ∉ (generateReadme s net).events ∧
    (∀ k, Event.storeKey k ∉ (generateReadme s net).events) ∧
    (generateReadme s net).state = s := by
  rw [generateReadme_incomplete net h1 h2]
  simp

theorem generate_incomplete_project_witness :
    (generateReadme stateWithKey FetchOutcome.transportError).outcome
        = GenOutcome.incompleteProject ∧
    Event.netRequest ∉ (generateReadme stateWithKey FetchOutcome.transportError).events ∧
    (∀ k, Event.storeKey k ∉ (generateReadme stateWithKey FetchOutcome.transportError).events) ∧
    (generateReadme stateWithKey FetchOutcome.transportError).state = stateWithKey :=
  generate_incomplete_project stateWithKey FetchOutcome.transportError (by decide) (Or.inl rfl)

/-- Claim C3: whenever apiKey, name and description are all non-empty,
`generateReadme` writes the current apiKey verbatim to the key/value cell
(overwriting whatever was stored) strictly before the network request in the
event trace, and the write survives every network outcome — transport error,
non-2xx status, malformed payload, or success. -/
theorem generate_persists_key_before_request (s : ComponentState) (net : FetchOutcome)
    (h1 : s.projectData.apiKey ≠ "") (h2 : s.projectData.name ≠ "")
    (h3 : s.projectData.description ≠ "") :
    (generateReadme s net).events
        = [Event.storeKey s.projectData.apiKey, Event.netRequest] ∧
    (generateReadme s net).state.storage = some s.projectData.apiKey := by
  cases net with
  | transportError =>
      rw [generateReadme_transport h1 h2 h3]
      exact ⟨rfl, rfl⟩
  | response ok choices =>
      cases ok
      · rw [generateReadme_notOk choices h1 h2 h3]
        exact ⟨rfl, rfl⟩
      · cases choices with
        | none =>
            rw [generateReadme_ok_noChoices h1 h2 h3]
            exact ⟨rfl, rfl⟩
        | some cs =>
            rw [generateReadme_ok_choices cs h1 h2 h3]
            exact ⟨rfl, rfl⟩

theorem generate_persists_key_before_request_witness :
    (generateReadme stateValid FetchOutcome.transportError).events
        = [Event.storeKey stateValid.projectData.apiKey, Event.netRequest] ∧
    (generateReadme stateValid FetchOutcome.transportError).state.storage
        = some stateValid.projectData.apiKey :=
  generate_persists_key_before_request stateValid FetchOutcome.transportError
    (by decide) (by decide) (by decide)

/-- Claim C4: every invocation of `generateReadme` from a state the component
can actually be in ends with the busy flag clear, on every terminal path —
precondition failure, transport failure, non-2xx status, malformed payload,
and success.  (The only trigger of the handler is the generate button, which
is disabled while the flag is set, so every invocable state is `Reachable`
and has the flag clear; the precondition-failure paths return without ever
setting it, and all post-precondition paths clear it in the `finally`
block.) -/
theorem generate_never_leaves_busy (s : ComponentState) (net : FetchOutcome)
    (hs : Reachable s) :
    (generateReadme s net).state.isGenerating = false := by
  rcases generateReadme_busy_cases s net with h | h
  · exact h
  · rw [h]
    exact (reachable_invariant hs).2.2

theorem generate_never_leaves_busy_witness :
    (generateReadme (initState none) FetchOutcome.transportError).state.isGenerating = false :=
  generate_never_leaves_busy (initState none) FetchOutcome.transportError (Reachable.init none)

/-- Claim C5: for every prior generation result, if the preconditions pass and
the network step yields a transport error or a non-2xx status, the outcome is
the generation-failed one and the stored readme text is exactly what it was
before the call — it is neither cleared nor overwritten. -/
theorem generate_failure_preserves_result (s : ComponentState) (net : FetchOutcome)
    (h1 : s.projectData.apiKey ≠ "") (h2 : s.projectData.name ≠ "")
    (h3 : s.projectData.description ≠ "")
    (hfail : net = FetchOutcome.transportError ∨
             ∃ choices, net = FetchOutcome.response false choices) :
    (generateReadme s net).outcome = GenOutcome.generationFailed ∧
    (generateReadme s net).state.generatedReadme = s.generatedReadme := by
  rcases hfail with h | ⟨choices, h⟩
  · subst h
    rw [generateReadme_transport h1 h2 h3]
    exact ⟨rfl, rfl⟩
  · subst h
    rw [generateReadme_notOk choices h1 h2 h3]
    exact ⟨rfl, rfl⟩

/-- A session that has already generated a readme successfully; its stored
text is "# Widget". -/
def stateReady : ComponentState :=
  (generateReadme stateValid
    (FetchOutcome.response true (some [{ message := some { content := some "# Widget" } }]))).state

theorem generate_failure_preserves_result_witness :
    (generateReadme stateReady FetchOutcome.transportError).outcome
        = GenOutcome.generationFailed ∧
    (generateReadme stateReady FetchOutcome.transportError).state.generatedReadme
        = stateReady.generatedReadme :=
  generate_failure_preserves_result stateReady FetchOutcome.transportError
    (by decide) (by decide) (by decide) (Or.inl rfl)

theorem generateReadme_ok_choices_readme {s : ComponentState} (cs : List Choice)
    (h1 : s.projectData.apiKey ≠ "") (h2 : s.projectData.name ≠ "")
    (h3 : s.projectData.description ≠ "") :
    (generateReadme s (FetchOutcome.response true (some cs))).state.generatedReadme
      = extractReadme cs := by
  rw [generateReadme_ok_choices cs h1 h2 h3]

/-- Counterexample to claim C6 as stated: a success response whose first
choice carries a present but empty content string.  The claim would have the
stored text equal that content (the empty string); the code's `||` fallback
replaces every falsy value, so the stored text is the fallback literal
instead. -/
theorem generate_success_empty_content_not_verbatim :
    (generateReadme stateValid
        (FetchOutcome.response true
          (some [{ message := some { content := some "" } }]))).state.generatedReadme
      = "Failed to generate README" ∧
    ¬ (generateReadme stateValid
        (FetchOutcome.response true
          (some [{ message := some { content := some "" } }]))).state.generatedReadme
      = "" := by
  constructor
  · decide
  · decide

/-- Claim C6 (amended): when the preconditions pass and the network step
returns a success response carrying a choices array, the status becomes
ready, the stored readme text equals the content of the first returned choice
whenever that content is present and non-empty, and whenever the first
choice, its message, or its content is absent — or the content is the empty
string — the stored text is the fixed fallback literal; the stored text is
never empty. -/
theorem generate_success_extraction (s : ComponentState) (choices : List Choice)
    (h1 : s.projectData.apiKey ≠ "") (h2 : s.projectData.name ≠ "")
    (h3 : s.projectData.description ≠ "") :
    (generateReadme s (FetchOutcome.response true (some choices))).outcome
        = GenOutcome.generated ∧
    (∀ c rest m txt, choices = c :: rest → c.message = some m →
        m.content = some txt → txt ≠ "" →
        (generateReadme s (FetchOutcome.response true (some choices))).state.generatedReadme
          = txt) ∧
    (choices = [] →
        (generateReadme s (FetchOutcome.response true (some choices))).state.generatedReadme
          = "Failed to generate README") ∧
    (∀ c rest, choices = c :: rest → c.message = none →
        (generateReadme s (FetchOutcome.response true (some choices))).state.generatedReadme
          = "Failed to generate README") ∧
    (∀ c rest m, choices = c :: rest → c.message = some m → m.content = none →
        (generateReadme s (FetchOutcome.response true (some choices))).state.generatedReadme
          = "Failed to generate README") ∧
    (∀ c rest m, choices = c :: rest → c.message = some m → m.content = some "" →
        (generateReadme s (FetchOutcome.response true (some choices))).state.generatedReadme
          = "Failed to generate README") ∧
    ¬ (generateReadme s (FetchOutcome.response true (some choices))).state.generatedReadme
        = "" := by
  have hrd := generateReadme_ok_choices_readme choices h1 h2 h3
  refine ⟨?_, ?_, ?_, ?_, ?_, ?_, ?_⟩
  · rw [generateReadme_ok_choices choices h1 h2 h3]
  · intro c rest m txt hch hm hc htxt
    subst hch
    rw [hrd]
    simp [extractReadme, hm, hc, htxt]
  · intro hch
    subst hch
    rw [hrd]
    simp [extractReadme]
  · intro c rest hch hm
    subst hch
    rw [hrd]
    simp [extractReadme, hm]
  · intro c rest m hch hm hc
    subst hch
    rw [hrd]
    simp [extractReadme, hm, hc]
  · intro c rest m hch hm hc
    subst hch
    rw [hrd]
    simp [extractReadme, hm, hc]
  · rw [hrd]
    exact extractReadme_ne_empty choices

theorem generate_success_extraction_witness :
    (generateReadme stateValid
        (FetchOutcome.response true
          (some [{ message := some { content := some "# Widget" } }]))).state.generatedReadme
      = "# Widget" :=
  (generate_success_extraction stateValid
      [{ message := some { content := some "# Widget" } }]
      (by decide) (by decide) (by decide)).2.1
    { message := some { content := some "# Widget" } } [] { content := some "# Widget" }
    "# Widget" rfl rfl rfl (by decide)

/-- Claim C7: the add handlers first trim whitespace from the staging token;
if the trimmed token is empty or already present in the respective list under
exact string comparison, the whole state — list and staging field included —
is unchanged; otherwise the trimmed token is appended at the end, every
existing element keeps its position, and the staging field is cleared. -/
theorem add_entry_trim_dedup_append (s : ComponentState) :
    (jsTrim s.currentTech = "" ∨ jsTrim s.currentTech ∈ s.projectData.techStack →
        addTechStack s = s) ∧
    (jsTrim s.currentTech ≠ "" → jsTrim s.currentTech ∉ s.projectData.techStack →
        addTechStack s =
          { s with
            projectData :=
              { s.projectData with
                techStack := s.projectData.techStack ++ [jsTrim s.currentTech] }
            currentTech := "" }) ∧
    (jsTrim s.currentFeature = "" ∨ jsTrim s.currentFeature ∈ s.projectData.features →
        addFeature s = s) ∧
    (jsTrim s.currentFeature ≠ "" → jsTrim s.currentFeature ∉ s.projectData.features →
        addFeature s =
          { s with
            projectData :=
              { s.projectData with
                features := s.projectData.features ++ [jsTrim s.currentFeature] }
            currentFeature := "" }) := by
  refine ⟨?_, ?_, ?_, ?_⟩
  · intro h
    simp only [addTechStack]
    rw [if_neg]
    rintro ⟨hne, hmem⟩
    rcases h with h | h
    · exact hne h
    · exact hmem h
  · intro hne hmem
    simp only [addTechStack]
    rw [if_pos ⟨hne, hmem⟩]
  · intro h
    simp only [addFeature]
    rw [if_neg]
    rintro ⟨hne, hmem⟩
    rcases h with h | h
    · exact hne h
    · exact hmem h
  · intro hne hmem
    simp only [addFeature]
    rw [if_pos ⟨hne, hmem⟩]

theorem add_entry_trim_dedup_append_witness :
    addTechStack stateStagedTech =
      { stateStagedTech with
        projectData :=
          { stateStagedTech.projectData with
            techStack := stateStagedTech.projectData.techStack
              ++ [jsTrim stateStagedTech.currentTech] }
        currentTech := "" } :=
  (add_entry_trim_dedup_append stateStagedTech).2.1 (by decide) (by decide)

/-- Claim C8: on every state the component can be in (whose lists are then
duplicate-free), the remove handlers delete exactly the first — and only —
occurrence of the token, keeping all other elements in their relative order
(`List.erase` semantics), and are a no-op when the token is absent. -/
theorem remove_entry_first_match (s : ComponentState) (tok : String)
    (hs : Reachable s) :
    (removeTechStack s tok).projectData.techStack
        = s.projectData.techStack.erase tok ∧
    (tok ∉ s.projectData.techStack → removeTechStack s tok = s) ∧
    (removeFeature s tok).projectData.features
        = s.projectData.features.erase tok ∧
    (tok ∉ s.projectData.features → removeFeature s tok = s) := by
  obtain ⟨ht, hf, -⟩ := reachable_invariant hs
  refine ⟨?_, ?_, ?_, ?_⟩
  · simp only [removeTechStack]
    exact (List.Nodup.erase_eq_filter ht tok).symm
  · intro hmem
    have hkeep : s.projectData.techStack.filter (fun t => t != tok)
        = s.projectData.techStack := by
      rw [List.filter_eq_self]
      intro b hb
      simp only [bne_iff_ne, ne_eq, decide_eq_true_eq]
      exact fun hba => hmem (hba ▸ hb)
    simp only [removeTechStack, hkeep]
  · simp only [removeFeature]
    exact (List.Nodup.erase_eq_filter hf tok).symm
  · intro hmem
    have hkeep : s.projectData.features.filter (fun f => f != tok)
        = s.projectData.features := by
      rw [List.filter_eq_self]
      intro b hb
      simp only [bne_iff_ne, ne_eq, decide_eq_true_eq]
      exact fun hba => hmem (hba ▸ hb)
    simp only [removeFeature, hkeep]

theorem remove_entry_first_match_witness :
    (removeTechStack stateAdded "Go").projectData.techStack
        = stateAdded.projectData.techStack.erase "Go" ∧
    (removeFeature stateAdded "Fast").projectData.features
        = stateAdded.projectData.features.erase "Fast" :=
  ⟨(remove_entry_first_match stateAdded "Go" stateAdded_reachable).1,
   (remove_entry_first_match stateAdded "Fast" stateAdded_reachable).2.2.1⟩

/-- Counterexample to claim C9 as stated: in the initial state no successful
generation has occurred and the stored text is empty, yet invoking the
`downloadReadme` handler directly still emits a download (of an empty
README.md) — the handler body contains no guard. -/
theorem download_without_result_still_downloads :
    (initState none).generatedReadme = "" ∧
    (downloadReadme (initState none)).2 = [Event.download "" "README.md"] := by
  constructor
  · rfl
  · rfl

/-- Claim C9 (amended): the `downloadReadme` handler itself unconditionally
emits one download of the current text under the fixed name README.md, even
when the text is empty; the guard lives in the view: the preview tab renders
the download control only when the text is non-empty, so in a state where no
successful generation has occurred the action is not reachable through the
interface and a download click there is a no-op. -/
theorem download_guarded_by_preview (s : ComponentState) :
    (downloadReadme s).2 = [Event.download s.generatedReadme "README.md"] ∧
    (s.generatedReadme = "" → uiDownloadClick s = (s, [])) ∧
    (s.generatedReadme ≠ "" → uiDownloadClick s = downloadReadme s) := by
  refine ⟨rfl, ?_, ?_⟩
  · intro h
    simp [uiDownloadClick, previewShowsDownload, h]
  · intro h
    simp [uiDownloadClick, previewShowsDownload, h]

theorem download_guarded_by_preview_witness :
    uiDownloadClick (initState none) = (initState none, []) :=
  (download_guarded_by_preview (initState none)).2.1 rfl

/-- Claim C10: after the preconditions pass, a 2xx response whose JSON body
has no choices field at all raises while indexing the absent array and lands
in the catch block: the outcome is the generation-failed one, the stored text
is untouched (no fallback is substituted), and the busy flag ends clear.  The
missing-content fallback applies only when a choices array exists: then the
outcome is the generated (ready) one, the busy flag ends clear, and the
fallback text is stored exactly when the first choice's content is absent
along the optional chain. -/
theorem ok_response_without_choices_fails (s : ComponentState)
    (h1 : s.projectData.apiKey ≠ "") (h2 : s.projectData.name ≠ "")
    (h3 : s.projectData.description ≠ "") :
    (generateReadme s (FetchOutcome.response true none)).outcome
        = GenOutcome.generationFailed ∧
    (generateReadme s (FetchOutcome.response true none)).state.generatedReadme
        = s.generatedReadme ∧
    (generateReadme s (FetchOutcome.response true none)).state.isGenerating = false ∧
    ∀ choices : List Choice,
      (generateReadme s (FetchOutcome.response true (some choices))).outcome
          = GenOutcome.generated ∧
      (generateReadme s (FetchOutcome.response true (some choices))).state.isGenerating
          = false ∧
      ((choices.head?.bind Choice.message).bind ChatMessage.content = none →
        (generateReadme s (FetchOutcome.response true (some choices))).state.generatedReadme
          = "Failed to generate README") := by
  refine ⟨?_, ?_, ?_, ?_⟩
  · rw [generateReadme_ok_noChoices h1 h2 h3]
  · rw [generateReadme_ok_noChoices h1 h2 h3]
  · rw [generateReadme_ok_noChoices h1 h2 h3]
  · intro choices
    refine ⟨?_, ?_, ?_⟩
    · rw [generateReadme_ok_choices choices h1 h2 h3]
    · rw [generateReadme_ok_choices choices h1 h2 h3]
    · intro hnone
      rw [generateReadme_ok_choices_readme choices h1 h2 h3]
      simp [extractReadme, hnone]

theorem ok_response_without_choices_fails_witness :
    (generateReadme stateValid (FetchOutcome.response true none)).outcome
        = GenOutcome.generationFailed :=
  (ok_response_without_choices_fails stateValid (by decide) (by decide) (by decide)).1

end ReadmeBuilder
